import Mathlib

/-!
Verification of the loan-operations pipeline tools.

The Python tools under src/tools/ops_tools.py, the static catalogs under
src/config/settings.py and the LoanFile data model under
src/models/loan_file.py are embedded shallowly:

* JSON dictionaries become association lists or record structures with
  Option-typed fields (a missing key is none; `dict.get(k, d)` becomes
  `Option.getD`);
* Python floats are modelled by exact rationals (the spec describes the
  arithmetic over the reals; `round(x, 2)` becomes rounding of a rational
  to hundredths);
* the ambient wall clock `datetime.now()` becomes an explicit integer
  parameter `now` counting days, and the rendering of an instant to a
  timestamp string is modelled by `formatDate`.
-/

namespace LoanOps

/-- `settings.REQUIRED_DOCUMENTS`: document requirements by loan type. -/
def REQUIRED_DOCUMENTS : List (String × List String) :=
  [("mortgage",
    ["signed_application", "proof_of_income", "bank_statements", "tax_returns",
     "property_appraisal", "title_insurance", "homeowners_insurance",
     "flood_certification"]),
   ("personal",
    ["signed_application", "proof_of_income", "bank_statements",
     "proof_of_identity"]),
   ("auto",
    ["signed_application", "proof_of_income", "proof_of_insurance",
     "vehicle_title", "purchase_agreement"]),
   ("business",
    ["signed_application", "business_tax_returns", "financial_statements",
     "business_license", "personal_guarantee", "collateral_documentation"])]

/-- `settings.COMPLIANCE_CHECKS`: the fixed battery of compliance checks. -/
def COMPLIANCE_CHECKS : List String :=
  ["anti_money_laundering", "know_your_customer", "truth_in_lending",
   "equal_credit_opportunity", "fair_lending", "flood_insurance",
   "privacy_disclosure"]

/-- `settings.SLA_THRESHOLDS["document_follow_up"]` (hours). -/
def SLA_document_follow_up : Nat := 24

/-- The five document status tags of `DocumentStatus` in loan_file.py. -/
def documentStatusTags : List String :=
  ["pending", "received", "verified", "rejected", "expired"]

/-- A received-documents map, as fed to the document checker: document name to
the optional `status` field of its JSON entry (a present document whose entry
has no `status` key carries `none`). -/
abbrev ReceivedDocs := List (String × Option String)

/-- Result slots filled by the classification loop of
`DocumentCheckerTool._run`. -/
structure DocClassification where
  missing : List String
  expired : List String
  pending_verification : List String
deriving DecidableEq, Repr

/-- The classification loop of `DocumentCheckerTool._run` (lines 42-50):
each required document is appended to `missing` when absent or `pending`,
to `expired` when `expired`, to `pending_verification` when `received`,
and skipped otherwise. -/
def classifyDocs (required : List String) (received : ReceivedDocs) :
    DocClassification :=
  match required with
  | [] => ⟨[], [], []⟩
  | doc :: rest =>
    let r := classifyDocs rest received
    match received.lookup doc with
    | none => { r with missing := doc :: r.missing }
    | some st =>
      if st = some "pending" then { r with missing := doc :: r.missing }
      else if st = some "expired" then { r with expired := doc :: r.expired }
      else if st = some "received" then
        { r with pending_verification := doc :: r.pending_verification }
      else r

/-- A required document counts as missing when it is absent from the received
map or its status is `pending` (first two branches of the loop). -/
def missingB (received : ReceivedDocs) (doc : String) : Bool :=
  match received.lookup doc with
  | none => true
  | some st => st == some "pending"

/-- A required document counts as expired when present with status `expired`. -/
def expiredB (received : ReceivedDocs) (doc : String) : Bool :=
  match received.lookup doc with
  | none => false
  | some st => st == some "expired"

/-- A required document awaits verification when present with status
`received`. -/
def pendingB (received : ReceivedDocs) (doc : String) : Bool :=
  match received.lookup doc with
  | none => false
  | some st => st == some "received"

/-- The classification loop computes the three filters of the required list
by the mutually exclusive predicates above. -/
lemma classifyDocs_eq (required : List String) (received : ReceivedDocs) :
    classifyDocs required received =
      ⟨required.filter (missingB received), required.filter (expiredB received),
       required.filter (pendingB received)⟩ := by
  induction required with
  | nil => rfl
  | cons doc rest ih =>
    simp only [classifyDocs, ih, List.filter_cons]
    cases hl : received.lookup doc with
    | none => simp [missingB, expiredB, pendingB, hl]
    | some st =>
      by_cases h1 : st = some "pending"
      · simp [missingB, expiredB, pendingB, hl, h1]
      · by_cases h2 : st = some "expired"
        · simp [missingB, expiredB, pendingB, hl, h1, h2]
        · by_cases h3 : st = some "received"
          · simp [missingB, expiredB, pendingB, hl, h1, h2, h3]
          · simp [missingB, expiredB, pendingB, hl, h1, h2, h3]

/-- Output record of `DocumentCheckerTool._run`. -/
structure DocumentCheckerOutput where
  loan_id : String
  loan_type : String
  total_required : Nat
  missing_documents : List String
  expired_documents : List String
  pending_verification : List String
  collection_complete : Bool
  sla_hours_remaining : Nat
  action_required : Bool
deriving DecidableEq, Repr

/-- Line 35 of `DocumentCheckerTool._run`:
`REQUIRED_DOCUMENTS.get(loan_type, REQUIRED_DOCUMENTS["personal"])`. -/
def requiredDocsFor (loan_type : String) : List String :=
  (REQUIRED_DOCUMENTS.lookup loan_type).getD
    ((REQUIRED_DOCUMENTS.lookup "personal").getD [])

/-- `DocumentCheckerTool._run`: audits the received documents of a loan
against the catalog for its loan type (falling back to the `personal`
catalog for unknown types). -/
def documentChecker_run (loan_id loan_type : String)
    (documents_received : ReceivedDocs) : DocumentCheckerOutput :=
  let required := requiredDocsFor loan_type
  let c := classifyDocs required documents_received
  { loan_id := loan_id
    loan_type := loan_type
    total_required := required.length
    missing_documents := c.missing
    expired_documents := c.expired
    pending_verification := c.pending_verification
    collection_complete := c.missing.length = 0 ∧ c.expired.length = 0
    sla_hours_remaining := SLA_document_follow_up
    action_required := c.missing.length > 0 ∨ c.expired.length > 0 }

lemma documentChecker_missing (lid lt : String) (rec : ReceivedDocs) :
    (documentChecker_run lid lt rec).missing_documents =
      (requiredDocsFor lt).filter (missingB rec) := by
  simp [documentChecker_run, classifyDocs_eq]

lemma documentChecker_expired (lid lt : String) (rec : ReceivedDocs) :
    (documentChecker_run lid lt rec).expired_documents =
      (requiredDocsFor lt).filter (expiredB rec) := by
  simp [documentChecker_run, classifyDocs_eq]

lemma documentChecker_pending (lid lt : String) (rec : ReceivedDocs) :
    (documentChecker_run lid lt rec).pending_verification =
      (requiredDocsFor lt).filter (pendingB rec) := by
  simp [documentChecker_run, classifyDocs_eq]

lemma documentChecker_complete (lid lt : String) (rec : ReceivedDocs) :
    (documentChecker_run lid lt rec).collection_complete = true ↔
      ((documentChecker_run lid lt rec).missing_documents = [] ∧
       (documentChecker_run lid lt rec).expired_documents = []) := by
  simp [documentChecker_run, classifyDocs_eq, List.length_eq_zero]

/-- If an association-list lookup succeeds, the key-value pair is a member. -/
lemma lookup_mem {l : List (String × Option String)} {a : String}
    {b : Option String} (h : l.lookup a = some b) : (a, b) ∈ l := by
  induction l with
  | nil => simp [List.lookup] at h
  | cons p rest ih =>
    obtain ⟨h1, h2⟩ := p
    simp only [List.lookup] at h
    cases ha : a == h1
    · simp only [ha] at h
      exact List.mem_cons_of_mem _ (ih h)
    · simp only [ha, Option.some.injEq] at h
      simp only [beq_iff_eq] at ha
      subst ha
      subst h
      exact List.mem_cons_self _ _

/-- The property C1 asserts of one audit run: the three report lists are
pairwise disjoint, within the required catalog their joint complement is
exactly the verified/rejected documents, and `collection_complete` holds
iff `missing` and `expired` are both empty. -/
def auditClassifiesCorrectly (lid lt : String) (rec : ReceivedDocs) : Prop :=
  (∀ d ∈ (documentChecker_run lid lt rec).missing_documents,
      d ∉ (documentChecker_run lid lt rec).expired_documents ∧
      d ∉ (documentChecker_run lid lt rec).pending_verification) ∧
  (∀ d ∈ (documentChecker_run lid lt rec).expired_documents,
      d ∉ (documentChecker_run lid lt rec).pending_verification) ∧
  (∀ d ∈ requiredDocsFor lt,
      (d ∉ (documentChecker_run lid lt rec).missing_documents ∧
       d ∉ (documentChecker_run lid lt rec).expired_documents ∧
       d ∉ (documentChecker_run lid lt rec).pending_verification) ↔
        (rec.lookup d = some (some "verified") ∨
         rec.lookup d = some (some "rejected"))) ∧
  ((documentChecker_run lid lt rec).collection_complete = true ↔
     ((documentChecker_run lid lt rec).missing_documents = [] ∧
      (documentChecker_run lid lt rec).expired_documents = []))

/-- C1: for every loan type and every received-document map whose statuses
are drawn from the five document status tags, `DocumentCheckerTool._run`
classifies each required document by its current status, its three output
lists are pairwise disjoint, their joint complement within the required list
is exactly the verified/rejected documents, and `collection_complete` is
true iff `missing` and `expired` are both empty. -/
theorem C1_documentAuditor_classification (lid lt : String)
    (rec : ReceivedDocs)
    (h : ∀ p ∈ rec, ∃ s ∈ documentStatusTags, p.2 = some s) :
    auditClassifiesCorrectly lid lt rec := by
  refine ⟨?_, ?_, ?_, documentChecker_complete lid lt rec⟩
  · intro d hd
    rw [documentChecker_missing, List.mem_filter] at hd
    constructor
    · rw [documentChecker_expired, List.mem_filter]
      rintro ⟨-, hp⟩
      revert hd hp
      unfold missingB expiredB
      cases rec.lookup d <;> simp_all
    · rw [documentChecker_pending, List.mem_filter]
      rintro ⟨-, hp⟩
      revert hd hp
      unfold missingB pendingB
      cases rec.lookup d <;> simp_all
  · intro d hd
    rw [documentChecker_expired, List.mem_filter] at hd
    rw [documentChecker_pending, List.mem_filter]
    rintro ⟨-, hp⟩
    revert hd hp
    unfold expiredB pendingB
    cases rec.lookup d <;> simp_all
  · intro d hd
    rw [documentChecker_missing, documentChecker_expired,
      documentChecker_pending]
    simp only [List.mem_filter, hd, true_and, not_and, Decidable.not_not]
    constructor
    · rintro ⟨hm, he, hp⟩
      cases hl : rec.lookup d with
      | none => exact absurd (by simp [missingB, hl]) hm
      | some st =>
        obtain ⟨s, hs, rfl⟩ := h (d, st) (lookup_mem hl)
        simp only [documentStatusTags, List.mem_cons, List.mem_singleton,
          List.not_mem_nil, or_false] at hs
        rcases hs with rfl | rfl | rfl | rfl | rfl
        · exact absurd (by simp [missingB, hl]) hm
        · exact absurd (by simp [pendingB, hl]) hp
        · exact Or.inl rfl
        · exact Or.inr rfl
        · exact absurd (by simp [expiredB, hl]) he
    · rintro (hl | hl) <;>
        exact ⟨by simp [missingB, hl], by simp [expiredB, hl],
          by simp [pendingB, hl]⟩

/-- A small received-document map used to instantiate the audit theorems. -/
def sampleReceived : ReceivedDocs :=
  [("signed_application", some "verified"), ("proof_of_income", some "received"),
   ("bank_statements", some "expired"), ("tax_returns", some "pending"),
   ("property_appraisal", some "rejected")]

/-- Witness for C1 at a concrete mortgage audit. -/
theorem C1_documentAuditor_classification_witness :
    (∀ p ∈ sampleReceived, ∃ s ∈ documentStatusTags, p.2 = some s) ∧
      auditClassifiesCorrectly "LN-1001" "mortgage" sampleReceived :=
  ⟨by decide,
   C1_documentAuditor_classification "LN-1001" "mortgage" sampleReceived
     (by decide)⟩

/-- C9: for every loan type outside the four catalog keys, the auditor uses
the `personal` catalog, so its report coincides with the `personal` report
in every field except the echoed loan type. -/
theorem C9_unknownLoanType_fallsBackToPersonal (lid lt : String)
    (rec : ReceivedDocs)
    (h : lt ∉ ["mortgage", "personal", "auto", "business"]) :
    requiredDocsFor lt = requiredDocsFor "personal" ∧
      (documentChecker_run lid lt rec).total_required =
        (documentChecker_run lid "personal" rec).total_required ∧
      (documentChecker_run lid lt rec).missing_documents =
        (documentChecker_run lid "personal" rec).missing_documents ∧
      (documentChecker_run lid lt rec).expired_documents =
        (documentChecker_run lid "personal" rec).expired_documents ∧
      (documentChecker_run lid lt rec).pending_verification =
        (documentChecker_run lid "personal" rec).pending_verification ∧
      (documentChecker_run lid lt rec).collection_complete =
        (documentChecker_run lid "personal" rec).collection_complete := by
  simp only [List.mem_cons, List.not_mem_nil, or_false, not_or] at h
  obtain ⟨h1, h2, h3, h4⟩ := h
  have e1 : (lt == "mortgage") = false := beq_eq_false_iff_ne.mpr h1
  have e2 : (lt == "personal") = false := beq_eq_false_iff_ne.mpr h2
  have e3 : (lt == "auto") = false := beq_eq_false_iff_ne.mpr h3
  have e4 : (lt == "business") = false := beq_eq_false_iff_ne.mpr h4
  have hl : REQUIRED_DOCUMENTS.lookup lt = none := by
    simp only [REQUIRED_DOCUMENTS, List.lookup, e1, e2, e3, e4]
  have hreq : requiredDocsFor lt = requiredDocsFor "personal" := by
    rw [requiredDocsFor, requiredDocsFor, hl]
    rfl
  refine ⟨hreq, ?_, ?_, ?_, ?_, ?_⟩ <;>
    simp [documentChecker_run, hreq]

/-- Witness for C9 at the unknown loan type `crypto`. -/
theorem C9_unknownLoanType_fallsBackToPersonal_witness :
    ("crypto" ∉ ["mortgage", "personal", "auto", "business"]) ∧
      (requiredDocsFor "crypto" = requiredDocsFor "personal" ∧
        (documentChecker_run "LN-9" "crypto" sampleReceived).total_required =
          (documentChecker_run "LN-9" "personal" sampleReceived).total_required ∧
        (documentChecker_run "LN-9" "crypto" sampleReceived).missing_documents =
          (documentChecker_run "LN-9" "personal" sampleReceived).missing_documents ∧
        (documentChecker_run "LN-9" "crypto" sampleReceived).expired_documents =
          (documentChecker_run "LN-9" "personal" sampleReceived).expired_documents ∧
        (documentChecker_run "LN-9" "crypto" sampleReceived).pending_verification =
          (documentChecker_run "LN-9" "personal" sampleReceived).pending_verification ∧
        (documentChecker_run "LN-9" "crypto" sampleReceived).collection_complete =
          (documentChecker_run "LN-9" "personal" sampleReceived).collection_complete) :=
  ⟨by decide,
   C9_unknownLoanType_fallsBackToPersonal "LN-9" "crypto" sampleReceived
     (by decide)⟩

/-! ## DocumentVerifierTool (src/tools/ops_tools.py lines 86-121)

The wall clock `datetime.now()` and the parsed document date are modelled as
integer day numbers; `(datetime.now() - doc_datetime).days` becomes the day
difference `now - d`.  The spec's contract makes date parsing total (a
malformed date is rejected by the caller), so `document_date` carries the
already-parsed day number when the field is present and non-empty. -/

/-- Rendering of an abstract instant to a timestamp string
(`datetime.now().isoformat()` / `strftime`). -/
def formatDate (t : Int) : String := toString t

/-- The JSON metadata consumed by `DocumentVerifierTool._run`. -/
structure DocumentData where
  pages_complete : Option Bool
  signed : Option Bool
  document_date : Option Int
deriving DecidableEq, Repr

/-- The six simulated verification checks (dict insertion order of line 91). -/
structure VerifierChecks where
  document_present : Bool
  legible : Bool
  complete : Bool
  not_expired : Bool
  signatures_valid : Bool
  dates_consistent : Bool
deriving DecidableEq, Repr

/-- `checks.items()` in the dict insertion order of the source. -/
def checksList (c : VerifierChecks) : List (String × Bool) :=
  [("document_present", c.document_present), ("legible", c.legible),
   ("complete", c.complete), ("not_expired", c.not_expired),
   ("signatures_valid", c.signatures_valid),
   ("dates_consistent", c.dates_consistent)]

/-- The document kinds subject to the 90-day freshness rule (line 101). -/
def dateSensitiveDocs : List String := ["proof_of_income", "bank_statements"]

/-- Lines 91-106 of `DocumentVerifierTool._run`: the base check vector and
the freshness override for date-sensitive documents. -/
def computeChecks (document_name : String) (data : DocumentData)
    (now : Int) : VerifierChecks :=
  let base : VerifierChecks :=
    { document_present := true
      legible := true
      complete := data.pages_complete.getD true
      not_expired := true
      signatures_valid := data.signed.getD true
      dates_consistent := true }
  if document_name ∈ dateSensitiveDocs then
    match data.document_date with
    | some d => if now - d > 90 then { base with not_expired := false } else base
    | none => base
  else base

/-- Output record of `DocumentVerifierTool._run`. -/
structure VerifierOutput where
  document_name : String
  verification_passed : Bool
  verification_date : String
  checks_performed : VerifierChecks
  failed_checks : List String
  recommendation : String
  notes : String
deriving DecidableEq, Repr

/-- `DocumentVerifierTool._run`. -/
def documentVerifier_run (document_name : String) (data : DocumentData)
    (now : Int) : VerifierOutput :=
  let checks := computeChecks document_name data now
  let all_passed := (checksList checks).all fun p => p.2
  let failed := ((checksList checks).filter fun p => !p.2).map Prod.fst
  { document_name := document_name
    verification_passed := all_passed
    verification_date := formatDate now
    checks_performed := checks
    failed_checks := failed
    recommendation := if all_passed then "VERIFIED" else "REQUIRES_ATTENTION"
    notes := "Document " ++
      (if all_passed then "verified successfully"
       else "failed verification: " ++ String.intercalate ", " failed) }

/-- Closed form of the computed check vector: only `complete`,
`signatures_valid` and `not_expired` can deviate from `true`, and
`not_expired` is cleared exactly when the document kind is date-sensitive,
a date is stated, and it lies more than 90 days before `now`. -/
lemma computeChecks_eq (n : String) (d : DocumentData) (t : Int) :
    computeChecks n d t =
      { document_present := true
        legible := true
        complete := d.pages_complete.getD true
        not_expired := !(decide (n ∈ dateSensitiveDocs) &&
          (match d.document_date with
           | some dd => decide (t - dd > 90)
           | none => false))
        signatures_valid := d.signed.getD true
        dates_consistent := true } := by
  unfold computeChecks
  dsimp only
  by_cases h : n ∈ dateSensitiveDocs
  · rw [if_pos h]
    cases hd : d.document_date with
    | none => simp [h]
    | some dd =>
      by_cases hgt : t - dd > 90
      · simp [h, hgt]
      · simp [h, hgt]
  · rw [if_neg h]
    simp [h]

/-- All six checks pass iff each field is `true`. -/
lemma checksList_all_iff (c : VerifierChecks) :
    ((checksList c).all fun p => p.2) = true ↔
      (c.document_present = true ∧ c.legible = true ∧ c.complete = true ∧
       c.not_expired = true ∧ c.signatures_valid = true ∧
       c.dates_consistent = true) := by
  simp [checksList, and_assoc]

/-- Membership in the failed-check name list characterises the checks that
are `false`. -/
lemma mem_failed_iff (c : VerifierChecks) (k : String) :
    (k ∈ (((checksList c).filter fun p => !p.2).map Prod.fst)) ↔
      (k, false) ∈ checksList c := by
  simp only [List.mem_map, List.mem_filter]
  constructor
  · rintro ⟨⟨k1, b⟩, ⟨hmem, hb⟩, rfl⟩
    simp only [Bool.not_eq_true'] at hb
    simpa [hb] using hmem
  · intro hmem
    exact ⟨(k, false), ⟨hmem, rfl⟩, rfl⟩

/-- The property C7 asserts of one verifier run: verification passes iff
all six checks hold, the recommendation is VERIFIED exactly on passing (and
otherwise REQUIRES_ATTENTION), the failed list names exactly the false
checks, and for date-sensitive documents with a stated date the freshness
check fails iff the date lies more than 90 days before evaluation time. -/
def verifierSpec (name : String) (data : DocumentData) (now : Int) : Prop :=
  let out := documentVerifier_run name data now
  (out.verification_passed = true ↔
     (out.checks_performed.document_present = true ∧
      out.checks_performed.legible = true ∧
      out.checks_performed.complete = true ∧
      out.checks_performed.not_expired = true ∧
      out.checks_performed.signatures_valid = true ∧
      out.checks_performed.dates_consistent = true)) ∧
  ((out.recommendation = "VERIFIED") ↔ out.verification_passed = true) ∧
  (out.recommendation = "VERIFIED" ∨
    out.recommendation = "REQUIRES_ATTENTION") ∧
  (∀ k, k ∈ out.failed_checks ↔ (k, false) ∈ checksList out.checks_performed) ∧
  (name ∈ dateSensitiveDocs →
    ∀ dd, data.document_date = some dd →
      (out.checks_performed.not_expired = false ↔ now - dd > 90))

/-- C7: for every document metadata input, `DocumentVerifierTool._run`
returns `verification_passed` equal to the conjunction of the six checks,
recommendation VERIFIED iff all pass (else REQUIRES_ATTENTION),
`failed_checks` exactly the false checks, and for date-sensitive documents
with a stated date, `not_expired` false iff the date is more than 90 days
before evaluation time. -/
theorem C7_documentValidator_checks (name : String) (data : DocumentData)
    (now : Int) : verifierSpec name data now := by
  have hrec : (documentVerifier_run name data now).recommendation =
      (if (documentVerifier_run name data now).verification_passed
        then "VERIFIED" else "REQUIRES_ATTENTION") := rfl
  unfold verifierSpec
  refine ⟨checksList_all_iff _, ?_, ?_, fun k => mem_failed_iff _ k, ?_⟩
  · rw [hrec]
    cases h : (documentVerifier_run name data now).verification_passed <;>
      decide
  · rw [hrec]
    cases h : (documentVerifier_run name data now).verification_passed <;>
      decide
  · intro hname dd hd
    show (computeChecks name data now).not_expired = false ↔ _
    rw [computeChecks_eq]
    simp [hd, hname]

/-- Witness for C7 on a stale proof of income. -/
theorem C7_documentValidator_checks_witness :
    verifierSpec "proof_of_income" ⟨some true, some true, some 10⟩ 200 :=
  C7_documentValidator_checks "proof_of_income"
    ⟨some true, some true, some 10⟩ 200

/-- C10: a date-sensitive document with no stated document date keeps
`not_expired = true`, so it can never fail the freshness check and, when its
completeness and signature flags hold, is recommended VERIFIED. -/
theorem C10_noDate_passesFreshness (name : String) (data : DocumentData)
    (now : Int) (_hname : name ∈ dateSensitiveDocs)
    (hd : data.document_date = none) :
    (documentVerifier_run name data now).checks_performed.not_expired =
        true ∧
      (data.pages_complete.getD true = true → data.signed.getD true = true →
        (documentVerifier_run name data now).recommendation = "VERIFIED") := by
  have hch : (documentVerifier_run name data now).checks_performed =
      computeChecks name data now := rfl
  constructor
  · rw [hch, computeChecks_eq]
    simp [hd]
  · intro hpc hsg
    show (if ((checksList (computeChecks name data now)).all fun p => p.2)
        then "VERIFIED" else "REQUIRES_ATTENTION") = "VERIFIED"
    rw [computeChecks_eq]
    simp [checksList, hd, hpc, hsg]

/-- Witness for C10: a two-year-old bank statement with no stated date is
recommended VERIFIED. -/
theorem C10_noDate_passesFreshness_witness :
    ("bank_statements" ∈ dateSensitiveDocs) ∧
      ((documentVerifier_run "bank_statements" ⟨some true, some true, none⟩
          800).checks_performed.not_expired = true ∧
        ((some true : Option Bool).getD true = true →
          (some true : Option Bool).getD true = true →
          (documentVerifier_run "bank_statements" ⟨some true, some true, none⟩
            800).recommendation = "VERIFIED")) :=
  ⟨by decide,
   C10_noDate_passesFreshness "bank_statements" ⟨some true, some true, none⟩
     800 (by decide) rfl⟩

/-! ## ComplianceValidatorTool (src/tools/ops_tools.py lines 143-195) -/

/-- The loan-data JSON fields consulted by the compliance checks; a missing
key is `none` and the source's `dict.get` defaults apply at the use sites. -/
structure LoanData where
  aml_cleared : Option Bool
  kyc_verified : Option Bool
  tila_disclosed : Option Bool
  loan_type : Option String
  flood_cert_clear : Option Bool
  flood_insurance_obtained : Option Bool
deriving DecidableEq, Repr

/-- One entry of the per-check `results` dict. -/
structure ComplianceCheckResult where
  check_name : String
  passed : Bool
  findings : Option String
  checked_date : String
deriving DecidableEq, Repr

/-- The if/elif chain of lines 150-175: one simulated compliance check. -/
def runComplianceCheck (data : LoanData) (now : Int)
    (check : String) : ComplianceCheckResult :=
  if check = "anti_money_laundering" then
    let passed := data.aml_cleared.getD true
    ⟨check, passed,
     if passed then none else some "AML flag detected - requires review",
     formatDate now⟩
  else if check = "know_your_customer" then
    let passed := data.kyc_verified.getD true
    ⟨check, passed,
     if passed then none else some "KYC verification incomplete",
     formatDate now⟩
  else if check = "truth_in_lending" then
    let passed := data.tila_disclosed.getD true
    ⟨check, passed,
     if passed then none else some "TILA disclosure missing", formatDate now⟩
  else if check = "equal_credit_opportunity" then
    ⟨check, true, none, formatDate now⟩
  else if check = "fair_lending" then
    ⟨check, true, none, formatDate now⟩
  else if check = "flood_insurance" then
    if data.loan_type = some "mortgage" then
      let passed := data.flood_cert_clear.getD true ||
        data.flood_insurance_obtained.getD false
      ⟨check, passed,
       if passed then none else some "Flood insurance required but not obtained",
       formatDate now⟩
    else ⟨check, true, some "N/A - not a mortgage", formatDate now⟩
  else ⟨check, true, none, formatDate now⟩

/-- Output record of `ComplianceValidatorTool._run`. -/
structure ComplianceOutput where
  loan_id : String
  compliance_passed : Bool
  total_checks : Nat
  passed_checks : Nat
  failed_checks : List String
  results : List (String × ComplianceCheckResult)
  recommendation : String
deriving DecidableEq, Repr

/-- `ComplianceValidatorTool._run`. -/
def complianceValidator_run (loan_id : String) (data : LoanData)
    (now : Int) : ComplianceOutput :=
  let results := COMPLIANCE_CHECKS.map fun c => (c, runComplianceCheck data now c)
  let all_passed := results.all fun r => r.2.passed
  let failed := (results.filter fun r => !r.2.passed).map Prod.fst
  { loan_id := loan_id
    compliance_passed := all_passed
    total_checks := COMPLIANCE_CHECKS.length
    passed_checks := COMPLIANCE_CHECKS.length - failed.length
    failed_checks := failed
    results := results
    recommendation := if all_passed then "CLEARED" else "REQUIRES_REMEDIATION" }

/-- A fully-compliant mortgage input: all flags true, flood cert clear. -/
def compliantMortgage : LoanData :=
  ⟨some true, some true, some true, some "mortgage", some true, none⟩

/-- The same input with only `aml_cleared` flipped to false. -/
def amlFlaggedMortgage : LoanData :=
  ⟨some false, some true, some true, some "mortgage", some true, none⟩

/-- The property C2 asserts of one compliance run: `compliance_passed` is
the conjunction of the individual check results and the recommendation is
CLEARED exactly when every check passes. -/
def complianceSpec (lid : String) (data : LoanData) (now : Int) : Prop :=
  let out := complianceValidator_run lid data now
  (out.compliance_passed = true ↔ ∀ r ∈ out.results, r.2.passed = true) ∧
  ((out.recommendation = "CLEARED") ↔ out.compliance_passed = true) ∧
  (out.failed_checks = [] ↔ out.compliance_passed = true)

/-- C2: `compliance_passed` is the conjunction of all seven check results
with recommendation CLEARED iff all pass; a fully-compliant mortgage input
passes with zero failed checks, and flipping only `aml_cleared` to false
fails exactly the `anti_money_laundering` check with its documented
findings string. -/
theorem C2_complianceEngine (lid : String) (data : LoanData) (now : Int) :
    complianceSpec lid data now ∧
      (complianceValidator_run lid compliantMortgage now).compliance_passed =
          true ∧
      (complianceValidator_run lid compliantMortgage now).failed_checks = [] ∧
      (complianceValidator_run lid amlFlaggedMortgage now).failed_checks =
        ["anti_money_laundering"] ∧
      (complianceValidator_run lid amlFlaggedMortgage now).compliance_passed =
        false ∧
      ((complianceValidator_run lid amlFlaggedMortgage now).results.lookup
          "anti_money_laundering").map ComplianceCheckResult.findings =
        some (some "AML flag detected - requires review") ∧
      (complianceValidator_run lid amlFlaggedMortgage now).recommendation =
        "REQUIRES_REMEDIATION" ∧
      (complianceValidator_run lid compliantMortgage now).recommendation =
        "CLEARED" := by
  have hrec : ∀ d : LoanData,
      (complianceValidator_run lid d now).recommendation =
        (if (complianceValidator_run lid d now).compliance_passed
          then "CLEARED" else "REQUIRES_REMEDIATION") := fun _ => rfl
  refine ⟨⟨?_, ?_, ?_⟩, rfl, rfl, rfl, rfl, rfl, ?_, ?_⟩
  · show ((COMPLIANCE_CHECKS.map fun c =>
        (c, runComplianceCheck data now c)).all fun r => r.2.passed) = true ↔ _
    rw [List.all_eq_true]
    rfl
  · rw [hrec]
    cases h : (complianceValidator_run lid data now).compliance_passed <;>
      decide
  · show (((COMPLIANCE_CHECKS.map fun c =>
        (c, runComplianceCheck data now c)).filter
          fun r => !r.2.passed).map Prod.fst) = [] ↔
      ((COMPLIANCE_CHECKS.map fun c =>
        (c, runComplianceCheck data now c)).all fun r => r.2.passed) = true
    rw [List.map_eq_nil_iff, List.filter_eq_nil_iff, List.all_eq_true]
    constructor
    · intro h r hr
      have := h r hr
      simpa using this
    · intro h r hr
      simp [h r hr]
  · rw [hrec]
    rfl
  · rw [hrec]
    rfl

/-! ## ExceptionAnalyzerTool (src/tools/ops_tools.py lines 217-269) -/

/-- The exception-details JSON; only the `issue` key is consulted. -/
structure ExceptionDetails where
  issue : Option String
deriving DecidableEq, Repr

/-- The nested resolution-strategy dict of lines 222-244:
`resolutions.get(exception_type, {}).get(issue)`. -/
def resolutionsFor (exception_type issue : String) : Option (List String) :=
  if exception_type = "document" then
    if issue = "missing" then
      some ["Request document from borrower", "Set follow-up reminder",
        "Escalate if SLA breached"]
    else if issue = "expired" then
      some ["Request updated document", "Verify if recent version exists"]
    else if issue = "illegible" then
      some ["Request clearer copy", "Accept if key information readable"]
    else if issue = "incomplete" then
      some ["Request missing pages", "Verify completeness requirements"]
    else none
  else if exception_type = "compliance" then
    if issue = "failed_check" then
      some ["Review findings", "Request remediation",
        "Escalate to compliance officer"]
    else if issue = "pending_review" then
      some ["Expedite review", "Provide additional documentation"]
    else if issue = "requires_override" then
      some ["Document justification", "Obtain management approval"]
    else none
  else if exception_type = "verification" then
    if issue = "mismatch" then
      some ["Investigate discrepancy", "Request clarification from borrower"]
    else if issue = "unable_to_verify" then
      some ["Try alternate verification method", "Request additional proof"]
    else if issue = "fraud_flag" then
      some ["Escalate immediately", "Suspend processing", "Notify fraud team"]
    else none
  else if exception_type = "funding" then
    if issue = "insufficient_funds" then
      some ["Verify funding source", "Delay funding date"]
    else if issue = "wire_error" then
      some ["Verify wire instructions", "Resubmit wire request"]
    else if issue = "hold_required" then
      some ["Identify hold reason", "Resolve blocking issues"]
    else none
  else none

/-- The severity lookup of lines 250-256. -/
def severityFor (exception_type issue : String) : String :=
  if exception_type = "verification" ∧ issue = "fraud_flag" then "critical"
  else if exception_type = "compliance" ∧ issue = "failed_check" then "high"
  else if exception_type = "document" ∧ issue = "missing" then "low"
  else "medium"

/-- Output record of `ExceptionAnalyzerTool._run`. -/
structure ExceptionOutput where
  exception_type : String
  issue : String
  severity : String
  impact_assessment : String
  proposed_resolutions : List String
  recommended_action : String
  escalation_required : Bool
  sla_impact : Bool
deriving DecidableEq, Repr

/-- `ExceptionAnalyzerTool._run`. -/
def exceptionAnalyzer_run (exception_type : String)
    (details : ExceptionDetails) : ExceptionOutput :=
  let issue := details.issue.getD "unknown"
  let available_resolutions :=
    (resolutionsFor exception_type issue).getD ["Escalate to supervisor"]
  let severity := severityFor exception_type issue
  { exception_type := exception_type
    issue := issue
    severity := severity
    impact_assessment :=
      if severity = "high" ∨ severity = "critical" then "Blocks funding"
      else "May delay funding"
    proposed_resolutions := available_resolutions
    recommended_action := available_resolutions.headD "Escalate"
    escalation_required := severity = "high" ∨ severity = "critical"
    sla_impact := severity ≠ "low" }

/-- Every entry in the resolution-strategy dict is a non-empty list. -/
lemma resolutionsFor_ne_nil (et is0 : String) (l : List String)
    (h : resolutionsFor et is0 = some l) : l ≠ [] := by
  unfold resolutionsFor at h
  split_ifs at h <;> simp_all <;> (rw [← h]; simp)

/-- The property C4 asserts of one analyzer run, for the issue actually
extracted from the details: fixed severity lookup, escalation iff severity
high or critical, SLA impact iff severity not low, the "Blocks funding"
impact statement exactly for high/critical, a non-empty resolution list
headed by the recommended action, and the single-action supervisor
fallback (with severity medium) for unknown issue tags. -/
def analyzerSpec (et : String) (details : ExceptionDetails) : Prop :=
  let out := exceptionAnalyzer_run et details
  let issue := details.issue.getD "unknown"
  (out.severity = severityFor et issue) ∧
  (out.escalation_required = true ↔
    (out.severity = "high" ∨ out.severity = "critical")) ∧
  (out.sla_impact = true ↔ out.severity ≠ "low") ∧
  (out.impact_assessment =
    (if out.severity = "high" ∨ out.severity = "critical" then "Blocks funding"
     else "May delay funding")) ∧
  out.proposed_resolutions ≠ [] ∧
  (out.recommended_action = out.proposed_resolutions.headD "Escalate") ∧
  (resolutionsFor et issue = none →
    out.proposed_resolutions = ["Escalate to supervisor"] ∧
      out.severity = "medium")

/-- C4 (amended): the analyzer classifies severity by the fixed lookup with
escalation/SLA/impact flags derived from it, returns a non-empty ordered
resolution list headed by the recommended action, falls back to the
single-action supervisor list with severity medium on unknown issue tags,
and on (verification, fraud_flag) recommends exactly "Escalate immediately"
with critical severity; the impact statement is the capitalized
"Blocks funding" / "May delay funding". -/
theorem C4_exceptionResolver (et : String) (details : ExceptionDetails) :
    analyzerSpec et details ∧
      (exceptionAnalyzer_run "verification" ⟨some "fraud_flag"⟩).severity =
          "critical" ∧
      (exceptionAnalyzer_run "verification"
          ⟨some "fraud_flag"⟩).escalation_required = true ∧
      (exceptionAnalyzer_run "verification"
          ⟨some "fraud_flag"⟩).recommended_action = "Escalate immediately" := by
  refine ⟨⟨rfl, ?_, ?_, rfl, ?_, rfl, ?_⟩, rfl, rfl, rfl⟩
  · simp [exceptionAnalyzer_run]
  · simp [exceptionAnalyzer_run]
  · show ((resolutionsFor et (details.issue.getD "unknown")).getD
      ["Escalate to supervisor"]) ≠ []
    cases h : resolutionsFor et (details.issue.getD "unknown") with
    | none => simp
    | some l => simpa using resolutionsFor_ne_nil _ _ _ h
  · intro h
    refine ⟨?_, ?_⟩
    · show ((resolutionsFor et (details.issue.getD "unknown")).getD
        ["Escalate to supervisor"]) = _
      rw [h]
      rfl
    · show severityFor et (details.issue.getD "unknown") = "medium"
      unfold severityFor
      unfold resolutionsFor at h
      split_ifs at h <;> simp_all [severityFor]

/-- Witness for C4 (the spec contains no top-level hypothesis; instantiated
at a funding wire error for concreteness). -/
theorem C4_exceptionResolver_witness :
    analyzerSpec "funding" ⟨some "wire_error"⟩ ∧
      (exceptionAnalyzer_run "verification" ⟨some "fraud_flag"⟩).severity =
          "critical" ∧
      (exceptionAnalyzer_run "verification"
          ⟨some "fraud_flag"⟩).escalation_required = true ∧
      (exceptionAnalyzer_run "verification"
          ⟨some "fraud_flag"⟩).recommended_action = "Escalate immediately" :=
  C4_exceptionResolver "funding" ⟨some "wire_error"⟩

/-- C4 counterexample to the claim as stated: the impact statement carried
by the output is the capitalized "Blocks funding", not "blocks funding". -/
theorem C4_exceptionResolver_counterexample :
    (exceptionAnalyzer_run "verification" ⟨some "fraud_flag"⟩).severity =
        "critical" ∧
      (exceptionAnalyzer_run "verification"
          ⟨some "fraud_flag"⟩).impact_assessment ≠ "blocks funding" ∧
      (exceptionAnalyzer_run "verification"
          ⟨some "fraud_flag"⟩).impact_assessment = "Blocks funding" ∧
      (exceptionAnalyzer_run "document" ⟨some "missing"⟩).impact_assessment ≠
        "may delay funding" ∧
      (exceptionAnalyzer_run "document" ⟨some "missing"⟩).impact_assessment =
        "May delay funding" := by
  refine ⟨rfl, ?_, rfl, ?_, rfl⟩ <;> decide

/-! ## FundingCalculatorTool (src/tools/ops_tools.py lines 295-345)

Python float arithmetic is modelled by exact rationals, the reading the
spec itself takes ("pure arithmetic").  `round(x, 2)` is modelled as
rounding `100 x` to the nearest integer; the model and Python's float
`round` differ only on exact half-cent ties, which no claim exercises. -/

/-- `round(x, 2)`: round to 2 decimal places. -/
def round2 (q : ℚ) : ℚ := (round (q * 100) : ℚ) / 100

/-- Rounding to the nearest integer is monotone. -/
lemma round_le_round {x y : ℚ} (h : x ≤ y) : round x ≤ round y := by
  rw [round_eq, round_eq]
  exact Int.floor_mono (by linarith)

/-- `round2` is monotone. -/
lemma round2_le_round2 {x y : ℚ} (h : x ≤ y) : round2 x ≤ round2 y := by
  unfold round2
  have := round_le_round (mul_le_mul_of_nonneg_right h (by norm_num : (0:ℚ) ≤ 100))
  have hcast : ((round (x * 100) : ℚ)) ≤ ((round (y * 100) : ℚ)) := by
    exact_mod_cast this
  linarith

/-- The `standard_fees` dict of lines 300-320 (fee name, amount), in dict
insertion order; the origination rates 0.01, 0.02, 0.015 are the exact
rationals the float literals denote in the spec's real-number reading. -/
def standardFees (loan_amount : ℚ) : List (String × List (String × ℚ)) :=
  [("mortgage",
    [("origination_fee", loan_amount * (1/100)), ("appraisal_fee", 500),
     ("title_insurance", 1200), ("recording_fee", 150)]),
   ("personal",
    [("origination_fee", loan_amount * (2/100)), ("processing_fee", 100)]),
   ("auto",
    [("origination_fee", loan_amount * (15/1000)),
     ("documentation_fee", 75)]),
   ("business",
    [("origination_fee", loan_amount * (2/100)), ("documentation_fee", 500),
     ("ucc_filing_fee", 200)])]

/-- Line 322: `standard_fees.get(loan_type, standard_fees["personal"])`. -/
def standardFeesFor (loan_amount : ℚ) (loan_type : String) :
    List (String × ℚ) :=
  ((standardFees loan_amount).lookup loan_type).getD
    (((standardFees loan_amount).lookup "personal").getD [])

/-- Line 323, `applicable_fees.update(fee_data)`: override values for keys
already present (keeping dict order), then append the new keys. -/
def updateFees (std ov : List (String × ℚ)) : List (String × ℚ) :=
  (std.map fun p => (p.1, (ov.lookup p.1).getD p.2)) ++
    ov.filter fun p => (std.lookup p.1).isNone

/-- Total fees after the override merge. -/
def rawTotalFees (loan_amount : ℚ) (loan_type : String)
    (fee_data : List (String × ℚ)) : ℚ :=
  ((updateFees (standardFeesFor loan_amount loan_type) fee_data).map
    Prod.snd).sum

/-- Unrounded prepaid interest: daily interest
`amount * (rate/100) / 365` times the fixed 15 days (lines 329-331). -/
def rawPrepaid (loan_amount interest_rate : ℚ) : ℚ :=
  loan_amount * (interest_rate / 100) / 365 * 15

/-- The net-disbursement formula of line 340:
`round(amount - total_fees - prepaid_interest, 2)`. -/
def netFormula (amount fees prepaid : ℚ) : ℚ :=
  round2 (amount - fees - prepaid)

/-- Output record of `FundingCalculatorTool._run`. -/
structure FundingOutput where
  loan_amount : ℚ
  interest_rate : ℚ
  loan_type : String
  fee_breakdown : List (String × ℚ)
  total_fees : ℚ
  prepaid_interest : ℚ
  net_disbursement : ℚ
  funding_method : String
  estimated_funding_date : String
deriving DecidableEq, Repr

/-- `FundingCalculatorTool._run`. -/
def fundingCalculator_run (loan_amount interest_rate : ℚ)
    (loan_type : String) (fee_data : List (String × ℚ)) (now : Int) :
    FundingOutput :=
  let applicable_fees := updateFees (standardFeesFor loan_amount loan_type)
    fee_data
  let total_fees := (applicable_fees.map Prod.snd).sum
  let net_disbursement := loan_amount - total_fees
  let prepaid_interest := rawPrepaid loan_amount interest_rate
  { loan_amount := loan_amount
    interest_rate := interest_rate
    loan_type := loan_type
    fee_breakdown := applicable_fees
    total_fees := round2 total_fees
    prepaid_interest := round2 prepaid_interest
    net_disbursement := round2 (net_disbursement - prepaid_interest)
    funding_method := if loan_amount > 50000 then "wire" else "ach"
    estimated_funding_date := formatDate (now + 2) }

/-- The property C3 asserts of one calculator run: the net disbursement is
the rounded `amount - total fees - prepaid interest` with prepaid interest
15 days of daily interest `amount * (rate/100) / 365`, and the funding
method is wire exactly above 50000. -/
def fundingSpec (amount rate : ℚ) (lt : String) (fees : List (String × ℚ))
    (now : Int) : Prop :=
  let out := fundingCalculator_run amount rate lt fees now
  (out.net_disbursement =
    netFormula amount (rawTotalFees amount lt fees) (rawPrepaid amount rate)) ∧
  (out.prepaid_interest = round2 (amount * (rate / 100) / 365 * 15)) ∧
  (out.total_fees = round2 (rawTotalFees amount lt fees)) ∧
  (out.funding_method = if amount > 50000 then "wire" else "ach")

/-- The merged fee schedule of the personal 100000 example. -/
lemma personalFees100000 :
    updateFees (standardFeesFor 100000 "personal") [] =
      [("origination_fee", 2000), ("processing_fee", 100)] := by
  norm_num [updateFees, standardFeesFor, standardFees, List.lookup]
  rfl

lemma c3_feeBreakdown :
    (fundingCalculator_run 100000 6 "personal" [] 0).fee_breakdown =
      [("origination_fee", 2000), ("processing_fee", 100)] :=
  personalFees100000

lemma c3_totalFees :
    (fundingCalculator_run 100000 6 "personal" [] 0).total_fees = 2100 := by
  show round2 ((List.map Prod.snd
    (updateFees (standardFeesFor 100000 "personal") [])).sum) = 2100
  rw [personalFees100000]
  have hs : (List.map Prod.snd
      [("origination_fee", (2000 : ℚ)), ("processing_fee", 100)]).sum =
      2100 := by
    norm_num [List.map]
  rw [hs]
  have h : round ((2100 : ℚ) * 100) = 210000 := by
    rw [round_eq, Int.floor_eq_iff]
    constructor <;> norm_num
  unfold round2
  rw [h]
  norm_num

lemma c3_prepaid :
    (fundingCalculator_run 100000 6 "personal" [] 0).prepaid_interest =
      24658 / 100 := by
  show round2 (rawPrepaid 100000 6) = 24658 / 100
  have h : round (rawPrepaid 100000 6 * 100) = 24658 := by
    rw [round_eq, Int.floor_eq_iff]
    unfold rawPrepaid
    constructor <;> norm_num
  unfold round2
  rw [h]
  norm_num

lemma c3_net :
    (fundingCalculator_run 100000 6 "personal" [] 0).net_disbursement =
      9765342 / 100 := by
  show round2 ((100000 - (List.map Prod.snd
    (updateFees (standardFeesFor 100000 "personal") [])).sum) -
      rawPrepaid 100000 6) = 9765342 / 100
  rw [personalFees100000]
  have hs : (List.map Prod.snd
      [("origination_fee", (2000 : ℚ)), ("processing_fee", 100)]).sum =
      2100 := by
    norm_num [List.map]
  rw [hs]
  have h : round (((100000 - 2100 : ℚ) - rawPrepaid 100000 6) * 100) =
      9765342 := by
    rw [round_eq, Int.floor_eq_iff]
    unfold rawPrepaid
    constructor <;> norm_num
  unfold round2
  rw [h]
  norm_num

lemma c3_method :
    (fundingCalculator_run 100000 6 "personal" [] 0).funding_method =
      "wire" := by
  show (if (100000 : ℚ) > 50000 then "wire" else "ach") = "wire"
  rw [if_pos (by norm_num : (100000 : ℚ) > 50000)]

/-- C3: the funding calculator computes daily interest
`amount * (rate/100) / 365`, prepaid interest of 15 days of it, and net
disbursement `amount - total fees - prepaid interest` rounded to 2
decimals; the rounded net disbursement is antitone in total fees and in
prepaid interest with the amount held fixed; the personal 100000 at 6.0%
example produces origination 2000, processing 100, total fees 2100,
prepaid interest 246.58 and net disbursement 97653.42, funded by wire;
and the funding method is wire iff the amount exceeds 50000. -/
theorem C3_fundingCalculator (amount rate : ℚ) (lt : String)
    (fees : List (String × ℚ)) (now : Int) :
    fundingSpec amount rate lt fees now ∧
      (∀ f g p : ℚ, f ≤ g → netFormula amount g p ≤ netFormula amount f p) ∧
      (∀ p q f : ℚ, p ≤ q → netFormula amount f q ≤ netFormula amount f p) ∧
      (fundingCalculator_run 100000 6 "personal" [] 0).fee_breakdown =
        [("origination_fee", 2000), ("processing_fee", 100)] ∧
      (fundingCalculator_run 100000 6 "personal" [] 0).total_fees = 2100 ∧
      (fundingCalculator_run 100000 6 "personal" [] 0).prepaid_interest =
        24658 / 100 ∧
      (fundingCalculator_run 100000 6 "personal" [] 0).net_disbursement =
        9765342 / 100 ∧
      (fundingCalculator_run 100000 6 "personal" [] 0).funding_method =
        "wire" := by
  refine ⟨⟨rfl, rfl, rfl, rfl⟩, ?_, ?_, c3_feeBreakdown, c3_totalFees,
    c3_prepaid, c3_net, c3_method⟩
  · intro f g p hfg
    exact round2_le_round2 (by linarith)
  · intro p q f hpq
    exact round2_le_round2 (by linarith)

/-! ## CommunicationDrafterTool (src/tools/ops_tools.py lines 369-462)

The context values rendered with Python's `:,.2f` format are modelled as
rationals rendered by `formatMoney`; the model rounds half-up where float
formatting rounds half-to-even, a difference no claim exercises. -/

/-- Pad a sub-thousand group to three digits. -/
def pad3 (n : Nat) : String :=
  if n < 10 then "00" ++ toString n
  else if n < 100 then "0" ++ toString n
  else toString n

/-- Decimal digits of `n` grouped in threes by commas. -/
def groupNat (n : Nat) : String :=
  if _h : n < 1000 then toString n
  else groupNat (n / 1000) ++ "," ++ pad3 (n % 1000)
termination_by n
decreasing_by exact Nat.div_lt_self (by omega) (by omega)

/-- Pad the cents to two digits. -/
def pad2 (n : Nat) : String :=
  if n < 10 then "0" ++ toString n else toString n

/-- Python's `:,.2f` number rendering: two decimals, thousands commas. -/
def formatMoney (q : ℚ) : String :=
  let c : Int := round (q * 100)
  (if c < 0 then "-" else "") ++
    groupNat (c.natAbs / 100) ++ "." ++ pad2 (c.natAbs % 100)

/-- Python truthiness of an optional string (`if ctx.get(k)`). -/
def truthy (o : Option String) : Bool :=
  match o with
  | some s => !(s == "")
  | none => false

/-- The context JSON consulted by the communication templates. -/
structure CommContext where
  loan_id : Option String
  status : Option String
  next_steps : Option String
  funding_date : Option String
  missing_documents : Option (List String)
  loan_amount : Option ℚ
  net_disbursement : Option ℚ
  funding_method : Option String
  account_last4 : Option String
  issue_description : Option String
  action_required : Option String
  response_deadline : Option String
deriving DecidableEq, Repr

/-- The `document_request` template body (lines 374-392). -/
def documentRequestBody (r : String) (ctx : CommContext) : String :=
  "\nDear " ++ r ++
    ",\n\nWe are processing your loan application and need the following " ++
    "document(s) to proceed:\n\n" ++
    String.intercalate "\n"
      ((ctx.missing_documents.getD ["Required document"]).map
        (fun doc => "â€¢ " ++ doc)) ++
    "\n\nPlease submit these documents at your earliest convenience. " ++
    "You can:\n- Upload securely through our portal\n- Email to " ++
    "loans@example.com\n- Fax to (555) 123-4567\n\nIf you have any " ++
    "questions, please contact us at (555) 987-6543.\n\nThank you for " ++
    "your prompt attention to this matter.\n\nBest regards,\n" ++
    "Loan Operations Team\n"

/-- The `status_update` template body (lines 393-406). -/
def statusUpdateBody (r : String) (ctx : CommContext) : String :=
  "\nDear " ++ r ++
    ",\n\nThis is an update on your loan application (Loan #" ++
    ctx.loan_id.getD "N/A" ++ "):\n\nCurrent Status: " ++
    ctx.status.getD "In Progress" ++ "\n" ++
    (if truthy ctx.next_steps then "Next Steps: " ++ ctx.next_steps.getD ""
     else "") ++ "\n" ++
    (if truthy ctx.funding_date then
      "Estimated Funding Date: " ++ ctx.funding_date.getD ""
     else "") ++
    "\n\nWe will keep you informed of any updates. If you have " ++
    "questions, please don\x27t hesitate to reach out.\n\nBest regards,\n" ++
    "Loan Operations Team\n"

/-- The `funding_notice` template body (lines 407-425). -/
def fundingNoticeBody (r : String) (ctx : CommContext) : String :=
  "\nDear " ++ r ++ ",\n\nGreat news! Your loan (#" ++
    ctx.loan_id.getD "N/A" ++
    ") has been approved for funding.\n\nFunding Details:\n" ++
    "- Loan Amount: $" ++ formatMoney (ctx.loan_amount.getD 0) ++
    "\n- Net Disbursement: $" ++
    formatMoney (ctx.net_disbursement.getD 0) ++
    "\n- Funding Method: " ++ ctx.funding_method.getD "Wire Transfer" ++
    "\n- Expected Funding Date: " ++
    ctx.funding_date.getD "Within 2 business days" ++
    "\n\nPlease ensure your receiving account information is accurate. " ++
    "Funds will be disbursed to:\nAccount ending in: " ++
    ctx.account_last4.getD "****" ++
    "\n\nCongratulations on your new loan!\n\nBest regards,\n" ++
    "Loan Operations Team\n"

/-- The `exception_notice` template body (lines 426-443). -/
def exceptionNoticeBody (r : String) (ctx : CommContext) : String :=
  "\nDear " ++ r ++
    ",\n\nWe\x27ve encountered an issue while processing your loan " ++
    "application that requires your attention:\n\nIssue: " ++
    ctx.issue_description.getD "Additional information needed" ++
    "\n\nAction Required: " ++ ctx.action_required.getD "Please contact us" ++
    "\n\nThis may affect your expected funding timeline. Please respond " ++
    "within " ++ ctx.response_deadline.getD "48 hours" ++
    " to avoid delays.\n\nContact us at (555) 987-6543 or reply to this " ++
    "message.\n\nThank you for your cooperation.\n\nBest regards,\n" ++
    "Loan Operations Team\n"

/-- Line 446: `templates.get(communication_type, templates["status_update"])`. -/
def templateBodyFor (t r : String) (ctx : CommContext) : String :=
  if t = "document_request" then documentRequestBody r ctx
  else if t = "status_update" then statusUpdateBody r ctx
  else if t = "funding_notice" then fundingNoticeBody r ctx
  else if t = "exception_notice" then exceptionNoticeBody r ctx
  else statusUpdateBody r ctx

/-- Lines 451-456: the subject dict lookup with default "Loan Update". -/
def subjectFor (t : String) (ctx : CommContext) : String :=
  if t = "document_request" then
    "Action Required: Documents Needed for Loan #" ++ ctx.loan_id.getD ""
  else if t = "status_update" then
    "Loan Status Update - #" ++ ctx.loan_id.getD ""
  else if t = "funding_notice" then
    "Congratulations! Your Loan is Ready for Funding"
  else if t = "exception_notice" then
    "Action Required: Issue with Your Loan Application"
  else "Loan Update"

/-- Output record of `CommunicationDrafterTool._run`. -/
structure CommOutput where
  communication_type : String
  recipient : String
  subject : String
  body : String
  priority : String
  drafted_at : String
deriving DecidableEq, Repr

/-- `CommunicationDrafterTool._run`. -/
def communicationDrafter_run (communication_type recipient : String)
    (ctx : CommContext) (now : Int) : CommOutput :=
  { communication_type := communication_type
    recipient := recipient
    subject := subjectFor communication_type ctx
    body := (templateBodyFor communication_type recipient ctx).trim
    priority :=
      if communication_type = "document_request" ∨
          communication_type = "exception_notice" then "high" else "normal"
    drafted_at := formatDate now }

/-- The four template keys of the `templates` dict. -/
def knownCommTypes : List String :=
  ["document_request", "status_update", "funding_notice", "exception_notice"]

/-- C6 (amended): subject and body come from the fixed templates of the
communication type; a type outside the four known ones falls back to the
`status_update` template for the body but to the fixed default subject
"Loan Update" (not the status_update subject); priority is high exactly
for document_request and exception_notice. -/
theorem C6_communicationComposer (t r : String) (ctx : CommContext)
    (now : Int) :
    ((communicationDrafter_run t r ctx now).priority = "high" ↔
      (t = "document_request" ∨ t = "exception_notice")) ∧
    ((communicationDrafter_run t r ctx now).subject = subjectFor t ctx) ∧
    ((communicationDrafter_run t r ctx now).body =
      (templateBodyFor t r ctx).trim) ∧
    (t ∉ knownCommTypes →
      (communicationDrafter_run t r ctx now).body =
          (communicationDrafter_run "status_update" r ctx now).body ∧
        (communicationDrafter_run t r ctx now).subject = "Loan Update") := by
  refine ⟨?_, rfl, rfl, ?_⟩
  · show (if t = "document_request" ∨ t = "exception_notice" then "high"
      else "normal") = "high" ↔ _
    by_cases h : t = "document_request" ∨ t = "exception_notice"
    · simp [h]
    · simp [h]
  · intro h
    simp only [knownCommTypes, List.mem_cons, List.not_mem_nil, or_false,
      not_or] at h
    obtain ⟨h1, h2, h3, h4⟩ := h
    constructor
    · show (templateBodyFor t r ctx).trim = (templateBodyFor "status_update" r ctx).trim
      unfold templateBodyFor
      rw [if_neg h1, if_neg h2, if_neg h3, if_neg h4]
      rfl
    · show subjectFor t ctx = "Loan Update"
      unfold subjectFor
      rw [if_neg h1, if_neg h2, if_neg h3, if_neg h4]

/-- An all-defaults context used by the communication theorems. -/
def emptyCommCtx : CommContext :=
  ⟨none, none, none, none, none, none, none, none, none, none, none, none⟩

/-- A context carrying a loan id, used by the communication theorems. -/
def loanIdCommCtx : CommContext :=
  ⟨some "L1", none, none, none, none, none, none, none, none, none, none,
   none⟩

/-- Witness for C6: the unknown type `payoff_quote` takes the status_update
body and the fixed default subject. -/
theorem C6_communicationComposer_witness :
    ("payoff_quote" ∉ knownCommTypes) ∧
      ((communicationDrafter_run "payoff_quote" "Alex" emptyCommCtx 5).body =
          (communicationDrafter_run "status_update" "Alex" emptyCommCtx
            5).body ∧
        (communicationDrafter_run "payoff_quote" "Alex" emptyCommCtx
          5).subject = "Loan Update") :=
  ⟨by decide,
   (C6_communicationComposer "payoff_quote" "Alex" emptyCommCtx 5).2.2.2
     (by decide)⟩

/-- C6 counterexample to the claim as stated: for an unknown type the
subject does not fall back to the status_update subject template but to
the fixed string "Loan Update". -/
theorem C6_communicationComposer_counterexample :
    (communicationDrafter_run "payoff_quote" "Alex" loanIdCommCtx 5).subject =
        "Loan Update" ∧
      (communicationDrafter_run "status_update" "Alex" loanIdCommCtx
        5).subject = "Loan Status Update - #L1" ∧
      (communicationDrafter_run "payoff_quote" "Alex" loanIdCommCtx
          5).subject ≠
        (communicationDrafter_run "status_update" "Alex" loanIdCommCtx
          5).subject := by
  refine ⟨rfl, rfl, ?_⟩
  decide

/-! ## LoanFile data model (src/models/loan_file.py)

`LoanFile.from_json` reads a file and parses the loaded dict; the file
read is a thin wrapper outside the spec's scope, so the parsing is
modelled directly on the serialized shape that `to_dict` emits.  An
unknown status string makes the Python enum constructor raise; this is
modelled by `Option`. -/

/-- `DocumentStatus` enum. -/
inductive DocumentStatus where
  | pending
  | received
  | verified
  | rejected
  | expired
deriving DecidableEq, Repr

/-- `.value` of a `DocumentStatus` member. -/
def DocumentStatus.value : DocumentStatus → String
  | .pending => "pending"
  | .received => "received"
  | .verified => "verified"
  | .rejected => "rejected"
  | .expired => "expired"

/-- `DocumentStatus(s)`: the enum constructor; `none` models `ValueError`. -/
def DocumentStatus.ofValue (s : String) : Option DocumentStatus :=
  if s = "pending" then some .pending
  else if s = "received" then some .received
  else if s = "verified" then some .verified
  else if s = "rejected" then some .rejected
  else if s = "expired" then some .expired
  else none

/-- `FundingStatus` enum. -/
inductive FundingStatus where
  | approved
  | document_collection
  | verification
  | compliance_review
  | exception_handling
  | ready_to_fund
  | funded
  | suspended
deriving DecidableEq, Repr

/-- `.value` of a `FundingStatus` member. -/
def FundingStatus.value : FundingStatus → String
  | .approved => "approved"
  | .document_collection => "document_collection"
  | .verification => "verification"
  | .compliance_review => "compliance_review"
  | .exception_handling => "exception_handling"
  | .ready_to_fund => "ready_to_fund"
  | .funded => "funded"
  | .suspended => "suspended"

/-- `FundingStatus(s)`: the enum constructor; `none` models `ValueError`. -/
def FundingStatus.ofValue (s : String) : Option FundingStatus :=
  if s = "approved" then some .approved
  else if s = "document_collection" then some .document_collection
  else if s = "verification" then some .verification
  else if s = "compliance_review" then some .compliance_review
  else if s = "exception_handling" then some .exception_handling
  else if s = "ready_to_fund" then some .ready_to_fund
  else if s = "funded" then some .funded
  else if s = "suspended" then some .suspended
  else none

/-- `Document` dataclass. -/
structure Document where
  name : String
  status : DocumentStatus
  received_date : Option String
  verified_date : Option String
  verified_by : Option String
  rejection_reason : Option String
  expiration_date : Option String
  notes : Option String
deriving DecidableEq, Repr

/-- `ComplianceCheck` dataclass. -/
structure ComplianceCheck where
  check_name : String
  passed : Option Bool
  checked_date : Option String
  checked_by : Option String
  findings : Option String
  requires_override : Bool
deriving DecidableEq, Repr

/-- The `Exception` dataclass of loan_file.py (renamed: `Exception` would
shadow unrelated library names). -/
structure LoanException where
  exception_id : String
  category : String
  description : String
  severity : String
  created_date : String
  resolved_date : Option String
  resolution : Option String
  assigned_to : Option String
deriving DecidableEq, Repr

/-- `LoanFile` dataclass; communications entries are opaque payloads. -/
structure LoanFile where
  loan_id : String
  borrower_name : String
  borrower_email : String
  borrower_phone : String
  loan_type : String
  loan_amount : ℚ
  interest_rate : ℚ
  term_months : Int
  approval_date : String
  approval_conditions : List String
  underwriter : String
  funding_status : FundingStatus
  target_funding_date : Option String
  actual_funding_date : Option String
  documents : List (String × Document)
  compliance_checks : List (String × ComplianceCheck)
  exceptions : List LoanException
  communications : List String
  funding_amount : Option ℚ
  funding_method : Option String
  disbursement_account : Option String
deriving DecidableEq, Repr

/-- The document projection `to_dict` emits (lines 127-129): only name,
status tag and the received/verified timestamps. -/
structure SerDocument where
  name : String
  status : String
  received_date : Option String
  verified_date : Option String
deriving DecidableEq, Repr

/-- The compliance projection `to_dict` emits (lines 130-132). -/
structure SerComplianceCheck where
  check_name : String
  passed : Option Bool
  findings : Option String
deriving DecidableEq, Repr

/-- The exception projection `to_dict` emits (lines 133-136): note it
stores only a `resolved` boolean, no created/resolved dates. -/
structure SerException where
  id : String
  category : String
  description : String
  severity : String
  resolved : Bool
deriving DecidableEq, Repr

/-- The persisted JSON shape produced by `LoanFile.to_dict`. -/
structure SerLoanFile where
  loan_id : String
  borrower_name : String
  borrower_email : String
  borrower_phone : String
  loan_type : String
  loan_amount : ℚ
  interest_rate : ℚ
  term_months : Int
  approval_date : String
  approval_conditions : List String
  underwriter : String
  funding_status : String
  target_funding_date : Option String
  actual_funding_date : Option String
  documents : List (String × SerDocument)
  compliance_checks : List (String × SerComplianceCheck)
  exceptions : List SerException
  communications : List String
deriving DecidableEq, Repr

/-- The per-document dict of `to_dict` line 127. -/
def Document.serialize (d : Document) : SerDocument :=
  ⟨d.name, d.status.value, d.received_date, d.verified_date⟩

/-- The per-check dict of `to_dict` line 130. -/
def ComplianceCheck.serialize (c : ComplianceCheck) : SerComplianceCheck :=
  ⟨c.check_name, c.passed, c.findings⟩

/-- The per-exception dict of `to_dict` line 133. -/
def LoanException.serialize (e : LoanException) : SerException :=
  ⟨e.exception_id, e.category, e.description, e.severity,
   e.resolved_date.isSome⟩

/-- `LoanFile.to_dict`. -/
def LoanFile.to_dict (lf : LoanFile) : SerLoanFile :=
  { loan_id := lf.loan_id
    borrower_name := lf.borrower_name
    borrower_email := lf.borrower_email
    borrower_phone := lf.borrower_phone
    loan_type := lf.loan_type
    loan_amount := lf.loan_amount
    interest_rate := lf.interest_rate
    term_months := lf.term_months
    approval_date := lf.approval_date
    approval_conditions := lf.approval_conditions
    underwriter := lf.underwriter
    funding_status := lf.funding_status.value
    target_funding_date := lf.target_funding_date
    actual_funding_date := lf.actual_funding_date
    documents := lf.documents.map fun p => (p.1, p.2.serialize)
    compliance_checks := lf.compliance_checks.map fun p => (p.1, p.2.serialize)
    exceptions := lf.exceptions.map LoanException.serialize
    communications := lf.communications }

/-- The document parser of `from_json` lines 147-154: only name, status,
received/verified dates are read back; the rest default to `None`. -/
def SerDocument.parse (d : SerDocument) : Option Document :=
  (DocumentStatus.ofValue d.status).map fun st =>
    ⟨d.name, st, d.received_date, d.verified_date, none, none, none, none⟩

/-- The compliance parser of lines 156-163. -/
def SerComplianceCheck.parse (c : SerComplianceCheck) : ComplianceCheck :=
  ⟨c.check_name, c.passed, none, none, c.findings, false⟩

/-- The exception parser of lines 165-176: the serialized shape carries no
created/resolved date or resolution keys, so `created_date` falls back to
the `.get` default `""` and the optional fields to `None`. -/
def SerException.parse (e : SerException) : LoanException :=
  ⟨e.id, e.category, e.description, e.severity, "", none, none, none⟩

/-- The document-parsing loop of lines 147-154, aborting on the first
unparsable status (the raised `ValueError`). -/
def parseDocEntries : List (String × SerDocument) →
    Option (List (String × Document))
  | [] => some []
  | p :: rest => do
    let doc ← p.2.parse
    let tail ← parseDocEntries rest
    some ((p.1, doc) :: tail)

/-- `LoanFile.from_json` on the loaded dict (lines 140-196); `from_json`
never reads `actual_funding_date` or any funding field. -/
def LoanFile.from_json (d : SerLoanFile) : Option LoanFile := do
  let documents ← parseDocEntries d.documents
  let fs ← FundingStatus.ofValue d.funding_status
  some
    { loan_id := d.loan_id
      borrower_name := d.borrower_name
      borrower_email := d.borrower_email
      borrower_phone := d.borrower_phone
      loan_type := d.loan_type
      loan_amount := d.loan_amount
      interest_rate := d.interest_rate
      term_months := d.term_months
      approval_date := d.approval_date
      approval_conditions := d.approval_conditions
      underwriter := d.underwriter
      funding_status := fs
      target_funding_date := d.target_funding_date
      actual_funding_date := none
      documents := documents
      compliance_checks := d.compliance_checks.map fun p => (p.1, p.2.parse)
      exceptions := d.exceptions.map SerException.parse
      communications := d.communications
      funding_amount := none
      funding_method := none
      disbursement_account := none }

/-- What survives a round trip of one document. -/
def Document.project (d : Document) : Document :=
  ⟨d.name, d.status, d.received_date, d.verified_date, none, none, none,
   none⟩

/-- What survives a round trip of one compliance check. -/
def ComplianceCheck.project (c : ComplianceCheck) : ComplianceCheck :=
  ⟨c.check_name, c.passed, none, none, c.findings, false⟩

/-- What survives a round trip of one exception. -/
def LoanException.project (e : LoanException) : LoanException :=
  ⟨e.exception_id, e.category, e.description, e.severity, "", none, none,
   none⟩

lemma docStatus_ofValue_value (s : DocumentStatus) :
    DocumentStatus.ofValue s.value = some s := by
  cases s <;> rfl

lemma fundingStatus_ofValue_value (s : FundingStatus) :
    FundingStatus.ofValue s.value = some s := by
  cases s <;> rfl

lemma SerDocument.parse_serialize (d : Document) :
    (d.serialize).parse = some d.project := by
  unfold SerDocument.parse Document.serialize Document.project
  rw [docStatus_ofValue_value]
  rfl

lemma documents_roundtrip (l : List (String × Document)) :
    parseDocEntries (l.map fun p => (p.1, p.2.serialize)) =
      some (l.map fun p => (p.1, p.2.project)) := by
  induction l with
  | nil => rfl
  | cons p rest ih =>
    simp [parseDocEntries, SerDocument.parse_serialize, ih]

/-- C5 (amended): reloading the persisted shape of a `LoanFile` preserves
the core loan fields, each document's name, status and received/verified
timestamps, each compliance check's name, tri-state result and findings,
and each exception's id, category, description and severity — but resets a
document's verifier identity, rejection reason, expiration date and notes,
a check's checked date/by and override flag, an exception's created and
resolved timestamps, resolution and assignee, and the loan's actual
funding date and funding fields. -/
theorem C5_loanFile_roundTrip (lf : LoanFile) :
    LoanFile.from_json lf.to_dict = some
      { lf with
        documents := lf.documents.map fun p => (p.1, p.2.project)
        compliance_checks :=
          lf.compliance_checks.map fun p => (p.1, p.2.project)
        exceptions := lf.exceptions.map LoanException.project
        actual_funding_date := none
        funding_amount := none
        funding_method := none
        disbursement_account := none } := by
  unfold LoanFile.from_json LoanFile.to_dict
  rw [documents_roundtrip]
  simp only [Option.bind_eq_bind, Option.some_bind,
    fundingStatus_ofValue_value, List.map_map]
  rfl

/-- A loan file whose exception carries concrete timestamps. -/
def sampleLoanFile : LoanFile :=
  { loan_id := "LN-7"
    borrower_name := "Jordan Diaz"
    borrower_email := "jordan@example.com"
    borrower_phone := "555-0100"
    loan_type := "personal"
    loan_amount := 20000
    interest_rate := 7
    term_months := 36
    approval_date := "2024-01-01"
    approval_conditions := []
    underwriter := "M. Chen"
    funding_status := .exception_handling
    target_funding_date := some "2024-01-20"
    actual_funding_date := none
    documents := [("signed_application",
      ⟨"signed_application", .verified, some "2024-01-02",
       some "2024-01-03", some "jane", none, none, none⟩)]
    compliance_checks := []
    exceptions := [⟨"EXC-001", "document", "missing bank statement",
      "low", "2024-01-02T09:00:00", some "2024-01-05T10:00:00",
      some "borrower uploaded", some "ops"⟩]
    communications := []
    funding_amount := none
    funding_method := none
    disbursement_account := none }

/-- C5 counterexample to the claim as stated: round-tripping
`sampleLoanFile` erases the exception's created timestamp (and its
resolution data), so timestamps are not preserved verbatim. -/
theorem C5_loanFile_roundTrip_counterexample :
    ((LoanFile.from_json sampleLoanFile.to_dict).map fun lf =>
        lf.exceptions.map LoanException.created_date) = some [""] ∧
      sampleLoanFile.exceptions.map LoanException.created_date =
        ["2024-01-02T09:00:00"] ∧
      (some [""] : Option (List String)) ≠ some ["2024-01-02T09:00:00"] ∧
      ((LoanFile.from_json sampleLoanFile.to_dict).map fun lf =>
          lf.documents.map fun p => p.2.verified_by) = some [none] ∧
      (sampleLoanFile.documents.map fun p => p.2.verified_by) =
        [some "jane"] := by
  refine ⟨rfl, rfl, by decide, rfl, rfl⟩

/-! ## Determinism across runs (C8)

Each tool is embedded as a pure function of its inputs and the evaluation
instant `now`; `DocumentCheckerTool` and `ExceptionAnalyzerTool` do not
consult the clock at all, so their determinism is structural.  The
`eraseTime` functions blank the timestamp fields of an output, modelling
the claim's "evaluation timestamps normalized/ignored". -/

/-- Blank the verifier's timestamp field. -/
def VerifierOutput.eraseTime (o : VerifierOutput) : VerifierOutput :=
  { o with verification_date := "" }

/-- Blank one compliance result's timestamp field. -/
def ComplianceCheckResult.eraseTime (r : ComplianceCheckResult) :
    ComplianceCheckResult :=
  { r with checked_date := "" }

/-- Blank the per-check timestamps of a compliance output. -/
def ComplianceOutput.eraseTime (o : ComplianceOutput) : ComplianceOutput :=
  { o with results := o.results.map fun p => (p.1, p.2.eraseTime) }

/-- Blank the funding output's estimated funding date. -/
def FundingOutput.eraseTime (o : FundingOutput) : FundingOutput :=
  { o with estimated_funding_date := "" }

/-- Blank the drafted-at timestamp of a communication. -/
def CommOutput.eraseTime (o : CommOutput) : CommOutput :=
  { o with drafted_at := "" }

/-- The verifier output, with timestamp blanked, as a function of the
computed check vector only. -/
def verifierErasedOf (name : String) (c : VerifierChecks) : VerifierOutput :=
  let all_passed := (checksList c).all fun p => p.2
  let failed := ((checksList c).filter fun p => !p.2).map Prod.fst
  { document_name := name
    verification_passed := all_passed
    verification_date := ""
    checks_performed := c
    failed_checks := failed
    recommendation := if all_passed then "VERIFIED" else "REQUIRES_ATTENTION"
    notes := "Document " ++
      (if all_passed then "verified successfully"
       else "failed verification: " ++ String.intercalate ", " failed) }

lemma documentVerifier_eraseTime (n : String) (d : DocumentData) (t : Int) :
    (documentVerifier_run n d t).eraseTime =
      verifierErasedOf n (computeChecks n d t) := rfl

lemma runCheck_passed_timeIndep (ld : LoanData) (t1 t2 : Int) (c : String) :
    (runComplianceCheck ld t1 c).passed = (runComplianceCheck ld t2 c).passed := by
  unfold runComplianceCheck
  split_ifs <;> rfl

lemma runCheck_eraseTime_timeIndep (ld : LoanData) (t1 t2 : Int)
    (c : String) :
    (runComplianceCheck ld t1 c).eraseTime =
      (runComplianceCheck ld t2 c).eraseTime := by
  unfold runComplianceCheck ComplianceCheckResult.eraseTime
  split_ifs <;> rfl

lemma complianceFailed_timeIndep (ld : LoanData) (t1 t2 : Int)
    (cs : List String) :
    (((cs.map fun c => (c, runComplianceCheck ld t1 c)).filter
        fun r => !r.2.passed).map Prod.fst) =
      (((cs.map fun c => (c, runComplianceCheck ld t2 c)).filter
        fun r => !r.2.passed).map Prod.fst) := by
  induction cs with
  | nil => rfl
  | cons c rest ih =>
    cases hb : (runComplianceCheck ld t2 c).passed <;>
      simp [List.filter_cons, runCheck_passed_timeIndep ld t1 t2 c, hb, ih]

lemma complianceAll_timeIndep (ld : LoanData) (t1 t2 : Int)
    (cs : List String) :
    ((cs.map fun c => (c, runComplianceCheck ld t1 c)).all
        fun r => r.2.passed) =
      ((cs.map fun c => (c, runComplianceCheck ld t2 c)).all
        fun r => r.2.passed) := by
  induction cs with
  | nil => rfl
  | cons c rest ih =>
    simp [List.all_cons, runCheck_passed_timeIndep ld t1 t2 c, ih]

lemma complianceResults_timeIndep (ld : LoanData) (t1 t2 : Int)
    (cs : List String) :
    ((cs.map fun c => (c, runComplianceCheck ld t1 c)).map
        fun p => (p.1, p.2.eraseTime)) =
      ((cs.map fun c => (c, runComplianceCheck ld t2 c)).map
        fun p => (p.1, p.2.eraseTime)) := by
  induction cs with
  | nil => rfl
  | cons c rest ih =>
    simp only [List.map_cons, ih, List.cons.injEq, and_true]
    rw [runCheck_eraseTime_timeIndep ld t1 t2 c]

lemma complianceValidator_eraseTime_timeIndep (lid : String)
    (ld : LoanData) (t1 t2 : Int) :
    (complianceValidator_run lid ld t1).eraseTime =
      (complianceValidator_run lid ld t2).eraseTime := by
  unfold complianceValidator_run ComplianceOutput.eraseTime
  dsimp only
  congr 1
  · exact complianceAll_timeIndep ld t1 t2 COMPLIANCE_CHECKS
  · rw [complianceFailed_timeIndep ld t1 t2 COMPLIANCE_CHECKS]
  · exact complianceFailed_timeIndep ld t1 t2 COMPLIANCE_CHECKS
  · exact complianceResults_timeIndep ld t1 t2 COMPLIANCE_CHECKS
  · rw [complianceAll_timeIndep ld t1 t2 COMPLIANCE_CHECKS]

/-- C8 (amended): every stage tool is a pure function of its inputs and
the evaluation instant; with timestamp fields blanked, the compliance,
funding and communication tools give identical outputs at any two
evaluation instants (the document checker and exception analyzer take no
instant at all), while the document verifier's non-timestamp output
depends on the instant only through its computed check vector — so two
runs agree whenever the freshness comparison does, e.g. at equal
instants. -/
theorem C8_stageDeterminism (lid n t r lt : String) (dd : DocumentData)
    (ld : LoanData) (ctx : CommContext) (amt rate : ℚ)
    (fees : List (String × ℚ)) (t1 t2 : Int) :
    (complianceValidator_run lid ld t1).eraseTime =
        (complianceValidator_run lid ld t2).eraseTime ∧
      (fundingCalculator_run amt rate lt fees t1).eraseTime =
        (fundingCalculator_run amt rate lt fees t2).eraseTime ∧
      (communicationDrafter_run t r ctx t1).eraseTime =
        (communicationDrafter_run t r ctx t2).eraseTime ∧
      (computeChecks n dd t1 = computeChecks n dd t2 →
        (documentVerifier_run n dd t1).eraseTime =
          (documentVerifier_run n dd t2).eraseTime) ∧
      (documentVerifier_run n dd t1).eraseTime =
        verifierErasedOf n (computeChecks n dd t1) := by
  refine ⟨complianceValidator_eraseTime_timeIndep lid ld t1 t2, rfl, rfl,
    ?_, documentVerifier_eraseTime n dd t1⟩
  intro h
  rw [documentVerifier_eraseTime, documentVerifier_eraseTime, h]

/-- Witness for C8 at equal instants (where the freshness comparison
trivially agrees). -/
theorem C8_stageDeterminism_witness :
    (computeChecks "proof_of_income" ⟨none, none, some 5⟩ 90 =
        computeChecks "proof_of_income" ⟨none, none, some 5⟩ 90) ∧
      (documentVerifier_run "proof_of_income" ⟨none, none, some 5⟩
          90).eraseTime =
        (documentVerifier_run "proof_of_income" ⟨none, none, some 5⟩
          90).eraseTime :=
  ⟨rfl,
   (C8_stageDeterminism "L1" "proof_of_income" "status_update" "Alex"
     "personal" ⟨none, none, some 5⟩
     ⟨none, none, none, none, none, none⟩ emptyCommCtx 100 6 [] 90
     90).2.2.2.1 rfl⟩

/-- C8 counterexample to the claim as stated: the document verifier's
non-timestamp output changes between two runs at different evaluation
instants — a proof of income dated day 5 passes the freshness check at day
90 and fails it at day 200, flipping `not_expired`, the pass flag and the
recommendation even after timestamps are blanked. -/
theorem C8_stageDeterminism_counterexample :
    (documentVerifier_run "proof_of_income" ⟨none, none, some 5⟩
          90).eraseTime ≠
        (documentVerifier_run "proof_of_income" ⟨none, none, some 5⟩
          200).eraseTime ∧
      (documentVerifier_run "proof_of_income" ⟨none, none, some 5⟩
          90).checks_performed.not_expired = true ∧
      (documentVerifier_run "proof_of_income" ⟨none, none, some 5⟩
          200).checks_performed.not_expired = false ∧
      (documentVerifier_run "proof_of_income" ⟨none, none, some 5⟩
          200).recommendation = "REQUIRES_ATTENTION" := by
  refine ⟨by decide, rfl, rfl, rfl⟩

end LoanOps
